import Mathlib

/-!
Verification of the zoning report-card dashboard (`streamlit_app.py`).

The script loads one aggregation CSV per scenario, normalizes the numeric
columns into a scenario record with integer-rounded percentage breakdowns,
and assembles grouped/stacked bar-chart specifications from the records.

We shallowly embed the data-loading and chart-assembly logic over exact
rationals: a CSV table is a list of column names together with rows mapping
column names to numeric values; Python's `round` (banker's rounding,
half-to-even) and `int` (truncation toward zero) are modelled explicitly.
-/

namespace ZoningReportCard

/-- Python 3 `round` on a rational: round half to even (banker's rounding). -/
def pyRound (q : ℚ) : ℤ :=
  let f := ⌊q⌋
  let frac := q - (f : ℚ)
  if frac < 1 / 2 then f
  else if 1 / 2 < frac then f + 1
  else if f % 2 = 0 then f else f + 1

/-- Python `int()` on a rational: truncation toward zero. -/
def pyInt (q : ℚ) : ℤ :=
  if 0 ≤ q then ⌊q⌋ else ⌈q⌉

/-- Python `round(v, 1)`: round to one decimal place, half to even. -/
def pyRound1 (q : ℚ) : ℚ :=
  (pyRound (q * 10) : ℚ) / 10

/-- A parsed CSV table as pandas exposes it to the script: the list of
column names, and the data rows, each row assigning a numeric value to
every column name. -/
structure DataFrame where
  cols : List String
  rows : List (String → ℚ)

/-- `get_value` from the script: the first row's value in `column` when the
column exists and the table has at least one row, else 0. -/
def get_value (df : DataFrame) (column : String) : ℚ :=
  match df.rows with
  | [] => 0
  | r :: _ => if column ∈ df.cols then r column else 0

/-- The six income-bracket columns, in the order the script extracts them. -/
def incomeColumns : List String :=
  ["marketUnits050Sum", "marketUnits51100Sum", "marketUnits101150Sum",
   "marketUnits151200Sum", "marketUnits201250Sum", "marketUnits251Sum"]

/-- The four bedroom-count columns, in extraction order. -/
def bedroomColumns : List String :=
  ["countMarket0BrSum", "countMarket1BrSum", "countMarket2BrSum",
   "countMarket3BrSum"]

/-- The five parking-type columns, in extraction order. -/
def parkingColumns : List String :=
  ["surfaceParkingStallsSum", "garageParkingStallsSum",
   "podiumParkingStallsSum", "structuredParkingStallsSum",
   "undergroundParkingStallsSum"]

/-- Every documented column of the CSV schema. -/
def documentedColumns : List String :=
  incomeColumns ++ bedroomColumns ++ parkingColumns ++
    ["totalUnitsSum", "affordableUnitsSum"]

/-- The percentage list the script computes for one bucket group:
`round(v / total * 100) if total > 0 else 0` for each value. -/
def pctList (values : List ℚ) : List ℤ :=
  values.map fun v => if 0 < values.sum then pyRound (v / values.sum * 100) else 0

/-- The normalized scenario record returned by the loader. -/
structure ScenarioRecord where
  scenario_name : String
  income_values : List ℚ
  income_pct : List ℤ
  bedroom_values : List ℚ
  bedroom_pct : List ℤ
  parking_values : List ℚ
  parking_pct : List ℤ
  total_units : ℚ
  affordable_units : ℚ
deriving DecidableEq, Repr

/-- The success path of `load_data_from_aggregation_csv`: extract the three
bucket groups and totals from the parsed table and build the record. -/
def build_record (df : DataFrame) (scenario_name : String) : ScenarioRecord :=
  let income_values := incomeColumns.map (get_value df)
  let bedroom_values := bedroomColumns.map (get_value df)
  let parking_values := parkingColumns.map (get_value df)
  { scenario_name := scenario_name
    income_values := income_values.map pyRound1
    income_pct := pctList income_values
    bedroom_values := bedroom_values.map pyRound1
    bedroom_pct := pctList bedroom_values
    parking_values := parking_values.map pyRound1
    parking_pct := pctList parking_values
    total_units := get_value df "totalUnitsSum"
    affordable_units := get_value df "affordableUnitsSum" }

/-- `load_data_from_aggregation_csv`: the locator may be absent (`none`) or a
string; a falsy locator returns `none` before any read and reports nothing.
`fetch` stands for `pd.read_csv`: `.ok` is a parsed table, `.error` a raised
exception, which the script catches, reporting it with two `st.error` calls
(the message and the traceback) before returning `none`. The second
component counts the `st.error` calls made. -/
def load_data_from_aggregation_csv (fetch : String → Except String DataFrame)
    (url : Option String) (scenario_name : String) :
    Option ScenarioRecord × ℕ :=
  match url with
  | none => (none, 0)
  | some u =>
    if u = "" then (none, 0)
    else
      match fetch u with
      | .error _ => (none, 2)
      | .ok df => (some (build_record df scenario_name), 0)

/-- One bar series of a stacked-breakdown chart, as the script configures
`go.Bar`: series name (the category), x labels (scenario names), y values
(the category's percentage across scenarios), per-bar text labels, the
series color, and the hover template. -/
structure StackedTrace where
  name : String
  x : List String
  y : List ℤ
  text : List String
  marker_color : String
  hovertemplate : String
deriving DecidableEq, Repr

/-- The `data_key` dispatch inside `create_multi_scenario_stacked_chart`:
select the scenario record's percentage array by key. The final case is
unreachable in the script (Python would raise a NameError). -/
def scenario_pct (data_key : String) (d : ScenarioRecord) : List ℤ :=
  if data_key = "income_pct" then d.income_pct
  else if data_key = "bedroom_pct" then d.bedroom_pct
  else if data_key = "parking_pct" then d.parking_pct
  else []

/-- `create_multi_scenario_stacked_chart`: one trace per category, in
category order; the trace's y values are that category's percentage entry
across all records, in record order, with text `"v%"` for positive values
and empty otherwise. -/
def create_multi_scenario_stacked_chart (all_data : List ScenarioRecord)
    (categories : List String) (data_key : String) (colors : String → String) :
    List StackedTrace :=
  let scenario_names := all_data.map ScenarioRecord.scenario_name
  (List.range categories.length).map fun i =>
    let category := categories.getD i ""
    let values := all_data.map fun d => (scenario_pct data_key d).getD i 0
    { name := category
      x := scenario_names
      y := values
      text := values.map fun v => if 0 < v then toString v ++ "%" else ""
      marker_color := colors category
      hovertemplate := category ++ ": %{y}%<extra></extra>" }

/-- One bar series of the grouped-totals chart: y values (displayed
heights), text labels, the hover data (`customdata`, absent on the
Total Units trace), and the series color. -/
structure GroupedTrace where
  name : String
  x : List String
  y : List ℚ
  text : List String
  marker_color : String
  customdata : Option (List ℚ)
  hovertemplate : String
deriving DecidableEq, Repr

/-- Python `max` over a nonempty list (the script never applies it to an
empty list: `max` on `[]` would raise). -/
def listMax : List ℚ → ℚ
  | [] => 0
  | x :: xs => xs.foldl max x

/-- `create_total_feasibility_chart_grouped`: the Total Units trace at true
values, then the Affordable Units trace where a value of 0 is displayed at
1% of the maximum across both series, its text label is empty unless the
true value is positive, and `customdata` carries the true values. -/
def create_total_feasibility_chart_grouped (scenario_names : List String)
    (totalUnits affordableUnits : List ℚ) (color : String) :
    GroupedTrace × GroupedTrace :=
  let trace1 : GroupedTrace :=
    { name := "Total Units"
      x := scenario_names
      y := totalUnits
      text := totalUnits.map fun v => toString (pyInt v)
      marker_color := color
      customdata := none
      hovertemplate := "Total Units: %{y}<extra></extra>" }
  let max_value := max (listMax totalUnits) (listMax affordableUnits)
  let min_display_value := max_value * (1 / 100)
  let affordable_display :=
    affordableUnits.map fun val => if 0 < val then val else min_display_value
  let trace2 : GroupedTrace :=
    { name := "Affordable Units"
      x := scenario_names
      y := affordable_display
      text := affordableUnits.map fun actual =>
        if 0 < actual then toString (pyInt actual) else ""
      marker_color := "#5DBDB4"
      customdata := some affordableUnits
      hovertemplate := "Affordable Units: %{customdata}<extra></extra>" }
  (trace1, trace2)

/-- The script's fixed income-bracket category labels. -/
def income_brackets : List String :=
  ["<=50% MFI", "51%-100% MFI", "101-150% MFI", "151-200% MFI",
   "201-250% MFI", ">251% MFI"]

/-- The script's income-bracket color mapping (a Python dict; a lookup of a
label outside the map would raise, modelled as `""`). -/
def income_bracket_colors (category : String) : String :=
  if category = "<=50% MFI" then "#5DBDB4"
  else if category = "51%-100% MFI" then "#F07D4A"
  else if category = "101-150% MFI" then "#6FB573"
  else if category = "151-200% MFI" then "#F4C04E"
  else if category = "201-250% MFI" then "#D66E6C"
  else if category = ">251% MFI" then "#6B9BD1"
  else ""

/-- The default baseline locator baked into the script. -/
def default_unzoned_url : String :=
  "https://firebasestorage.googleapis.com/v0/b/mapcraftlabs.appspot.com/o/labs_data%2FStandardCalifornia%2Fsimulations%2F-OgEbfYts3K-dWHr0Shp%2Faggregations%2Ffull_aggregations.csv?alt=media&token=b1fabf4c-9dec-4a55-8136-7bf90585f5d5"

/-- The default zoned-scenario locator baked into the script. -/
def default_zoned_url : String :=
  "https://firebasestorage.googleapis.com/v0/b/mapcraftlabs.appspot.com/o/labs_data%2FStandardCalifornia%2Fsimulations%2F-OgEbczgKYktEp6MlRzz%2Faggregations%2Ffull_aggregations.csv?alt=media&token=91f1a256-394e-47cf-a7d1-2b5920bbeba4"

/-- One scenario source the script will attempt to load: its locator and
display name. -/
structure ScenarioSource where
  url : String
  name : String
deriving DecidableEq, Repr

/-- The baseline locator resolution: the percent-decoded `unzoned_url`
query parameter when it is supplied and truthy, else the default locator.
`unquote` is the external percent-decoder. -/
def unzoned_csv_url (unquote : String → String)
    (params : String → Option String) : String :=
  match params "unzoned_url" with
  | some u => if u = "" then default_unzoned_url else unquote u
  | none => default_unzoned_url

/-- One iteration of the script's scenario-slot loop for slot `i`: a truthy
`zoned_url_i` parameter is percent-decoded; a falsy one falls back to the
default locator for slots 1 and 2 only; a slot whose resolved locator is
falsy contributes no source. -/
def scenarioSlot (unquote : String → String)
    (params : String → Option String) (i : ℕ) : Option ScenarioSource :=
  let url : Option String :=
    match params ("zoned_url_" ++ toString i) with
    | some u =>
      if u = "" then (if i < 3 then some default_zoned_url else none)
      else some (unquote u)
    | none => if i < 3 then some default_zoned_url else none
  match url with
  | some u => if u = "" then none else some { url := u, name := "Scenario " ++ toString i }
  | none => none

/-- The script's `zoned_scenarios` list: slots 1 through 9 in order. -/
def zoned_scenarios (unquote : String → String)
    (params : String → Option String) : List ScenarioSource :=
  (List.range' 1 9).filterMap (scenarioSlot unquote params)

/-- Every source the script attempts to load, in order: the baseline (when
its locator is truthy) followed by the zoned scenarios. -/
def attemptedSources (unquote : String → String)
    (params : String → Option String) : List ScenarioSource :=
  (if unzoned_csv_url unquote params = "" then []
   else [{ url := unzoned_csv_url unquote params, name := "Unzoned" }]) ++
    zoned_scenarios unquote params

/-- The `all_data` list the script assembles: each attempted source is
loaded and failed loads contribute no record. -/
def collectAllData (fetch : String → Except String DataFrame)
    (sources : List ScenarioSource) : List ScenarioRecord :=
  sources.filterMap fun s =>
    (load_data_from_aggregation_csv fetch (some s.url) s.name).1

/-- A table truncated to its first data row. -/
def firstRowOnly (df : DataFrame) : DataFrame :=
  { cols := df.cols, rows := df.rows.take 1 }


/-- The all-zero record the loader produces from a table carrying none of
the documented columns (or no data rows). -/
def zeroRecord (name : String) : ScenarioRecord where
  scenario_name := name
  income_values := List.replicate 6 0
  income_pct := List.replicate 6 0
  bedroom_values := List.replicate 4 0
  bedroom_pct := List.replicate 4 0
  parking_values := List.replicate 5 0
  parking_pct := List.replicate 5 0
  total_units := 0
  affordable_units := 0

/-! ### Concrete tables used as test inputs -/

/-- A table whose single row puts one unit in each of the first three income
brackets: the group sum is 3 and every bracket's true share is 100/3. -/
def dfThirds : DataFrame :=
  { cols := ["marketUnits050Sum", "marketUnits51100Sum", "marketUnits101150Sum"]
    rows := [fun _ => 1] }

/-- A table carrying none of the documented columns. -/
def dfBare : DataFrame :=
  { cols := ["unrelatedColumn"], rows := [fun _ => 7] }

/-- A table with two data rows whose first-row totals differ from the
second row's. -/
def dfTwoRows : DataFrame :=
  { cols := ["totalUnitsSum"], rows := [fun _ => 5, fun _ => 9] }


/-! ### Rounding lemmas -/

theorem pyRound_eq_lo (q : ℚ) (n : ℤ) (h₁ : (n : ℚ) ≤ q) (h₂ : q < (n : ℚ) + 1 / 2) :
    pyRound q = n := by
  have hf : ⌊q⌋ = n := Int.floor_eq_iff.mpr ⟨h₁, by linarith⟩
  unfold pyRound
  rw [hf, if_pos (by linarith)]

theorem pyRound_eq_hi (q : ℚ) (n : ℤ) (h₁ : (n : ℚ) - 1 / 2 < q) (h₂ : q < (n : ℚ)) :
    pyRound q = n := by
  have hf : ⌊q⌋ = n - 1 := by
    refine Int.floor_eq_iff.mpr ⟨?_, ?_⟩ <;> push_cast <;> linarith
  unfold pyRound
  rw [hf]
  rw [if_neg (by push_cast; linarith), if_pos (by push_cast; linarith)]
  omega

theorem abs_pyRound_sub_le (q : ℚ) : |(pyRound q : ℚ) - q| ≤ 1 / 2 := by
  have h0 : (⌊q⌋ : ℚ) ≤ q := Int.floor_le q
  have h1 : q < ⌊q⌋ + 1 := Int.lt_floor_add_one q
  unfold pyRound
  by_cases hlt : q - (⌊q⌋ : ℚ) < 1 / 2
  · rw [if_pos hlt, abs_le]
    constructor <;> linarith
  · rw [if_neg hlt]
    push_neg at hlt
    by_cases hgt : 1 / 2 < q - (⌊q⌋ : ℚ)
    · rw [if_pos hgt, abs_le]
      constructor <;> push_cast <;> linarith
    · rw [if_neg hgt]
      push_neg at hgt
      by_cases hev : ⌊q⌋ % 2 = 0
      · rw [if_pos hev, abs_le]
        constructor <;> linarith
      · rw [if_neg hev, abs_le]
        constructor <;> push_cast <;> linarith

theorem pyRound_zero : pyRound 0 = 0 :=
  pyRound_eq_lo 0 0 (by norm_num) (by norm_num)

theorem pyRound1_zero : pyRound1 0 = 0 := by
  simp [pyRound1, pyRound_zero]

/-! ### Percentage-list lemmas -/

theorem pctList_length (values : List ℚ) : (pctList values).length = values.length := by
  simp [pctList]

theorem pctList_of_pos (values : List ℚ) (h : 0 < values.sum) :
    pctList values = values.map fun v => pyRound (v / values.sum * 100) := by
  simp only [pctList, if_pos h]

theorem pctList_of_not_pos (values : List ℚ) (h : ¬ 0 < values.sum) :
    pctList values = List.replicate values.length 0 := by
  simp [pctList, if_neg h, List.map_const']

theorem pctList_getD (values : List ℚ) (i : ℕ) (hi : i < values.length) :
    (pctList values).getD i 0 =
      if 0 < values.sum then pyRound (values.getD i 0 / values.sum * 100) else 0 := by
  have hlen : i < (pctList values).length := by rwa [pctList_length]
  rw [List.getD_eq_getElem _ _ hlen, List.getD_eq_getElem _ _ hi]
  simp [pctList]

theorem abs_sum_pyRound_sub_le (l : List ℚ) :
    |(l.map fun v => (pyRound v : ℚ)).sum - l.sum| ≤ l.length * (1 / 2) := by
  induction l with
  | nil => simp
  | cons x xs ih =>
    have hx := abs_pyRound_sub_le x
    simp only [List.map_cons, List.sum_cons, List.length_cons]
    have hsplit :
        (pyRound x : ℚ) + (xs.map fun v => (pyRound v : ℚ)).sum - (x + xs.sum) =
          ((pyRound x : ℚ) - x) +
            ((xs.map fun v => (pyRound v : ℚ)).sum - xs.sum) := by ring
    rw [hsplit]
    calc |((pyRound x : ℚ) - x) + ((xs.map fun v => (pyRound v : ℚ)).sum - xs.sum)|
        ≤ |(pyRound x : ℚ) - x| + |(xs.map fun v => (pyRound v : ℚ)).sum - xs.sum| :=
          abs_add _ _
      _ ≤ 1 / 2 + xs.length * (1 / 2) := add_le_add hx ih
      _ = (xs.length + 1) * (1 / 2) := by ring
      _ = ((xs.length + 1 : ℕ) : ℚ) * (1 / 2) := by push_cast; ring

theorem sum_true_pct (values : List ℚ) (h : values.sum ≠ 0) :
    (values.map fun v => v / values.sum * 100).sum = 100 := by
  have hrw : (values.map fun v => v / values.sum * 100) =
      values.map fun v => v * (100 / values.sum) :=
    List.map_congr_left fun a _ => by ring
  rw [hrw, List.sum_map_mul_right, List.map_id']
  field_simp

theorem pctList_sum_bound (values : List ℚ) (h : 0 < values.sum) :
    |((pctList values).sum : ℚ) - 100| ≤ values.length * (1 / 2) := by
  have hne : values.sum ≠ 0 := ne_of_gt h
  rw [pctList_of_pos values h]
  have hcast : (((values.map fun v => pyRound (v / values.sum * 100)).sum : ℤ) : ℚ) =
      ((values.map fun v => v / values.sum * 100).map fun v => (pyRound v : ℚ)).sum := by
    rw [Int.cast_list_sum, List.map_map, List.map_map]
    rfl
  rw [hcast]
  have := abs_sum_pyRound_sub_le (values.map fun v => v / values.sum * 100)
  rw [sum_true_pct values hne, List.length_map] at this
  exact this

/-! ### Loader lemmas -/

theorem get_value_firstRowOnly (df : DataFrame) (c : String) :
    get_value (firstRowOnly df) c = get_value df c := by
  cases h : df.rows with
  | nil => simp [get_value, firstRowOnly, h]
  | cons r t => simp [get_value, firstRowOnly, h]

theorem build_record_firstRowOnly (df : DataFrame) (name : String) :
    build_record (firstRowOnly df) name = build_record df name := by
  have h : get_value (firstRowOnly df) = get_value df :=
    funext (get_value_firstRowOnly df)
  simp [build_record, h]

theorem get_value_of_not_mem (df : DataFrame) (c : String) (h : c ∉ df.cols) :
    get_value df c = 0 := by
  cases hr : df.rows with
  | nil => simp [get_value, hr]
  | cons r t => simp [get_value, hr, h]

theorem get_value_of_rows_nil (df : DataFrame) (h : df.rows = []) (c : String) :
    get_value df c = 0 := by
  simp [get_value, h]

theorem map_get_value_zero (df : DataFrame) (cs : List String)
    (h : ∀ c ∈ cs, get_value df c = 0) :
    cs.map (get_value df) = List.replicate cs.length 0 := by
  induction cs with
  | nil => rfl
  | cons c cs ih =>
    simp only [List.map_cons, List.length_cons, List.replicate_succ]
    rw [h c (List.mem_cons_self _ _), ih fun c hc => h c (List.mem_cons_of_mem _ hc)]

theorem pctList_replicate_zero (n : ℕ) :
    pctList (List.replicate n 0) = List.replicate n 0 := by
  have hs : (List.replicate n (0 : ℚ)).sum = 0 := by simp
  rw [pctList_of_not_pos _ (by rw [hs]; exact lt_irrefl 0), List.length_replicate]

theorem map_pyRound1_replicate_zero (n : ℕ) :
    (List.replicate n (0 : ℚ)).map pyRound1 = List.replicate n 0 := by
  simp [List.map_replicate, pyRound1_zero]

/-! ### listMax lemmas -/

theorem foldl_max_zero (xs : List ℚ) (h : ∀ v ∈ xs, v = 0) :
    xs.foldl max 0 = 0 := by
  induction xs with
  | nil => rfl
  | cons x t ih =>
    have hx : x = 0 := h x (List.mem_cons_self _ _)
    simp only [List.foldl_cons, hx, max_self]
    exact ih fun v hv => h v (List.mem_cons_of_mem _ hv)

theorem listMax_all_zero (l : List ℚ) (h : ∀ v ∈ l, v = 0) : listMax l = 0 := by
  cases l with
  | nil => rfl
  | cons x t =>
    have hx : x = 0 := h x (List.mem_cons_self _ _)
    simp only [listMax, hx]
    exact foldl_max_zero t fun v hv => h v (List.mem_cons_of_mem _ hv)

theorem getD_map {α β : Type} (f : α → β) (l : List α) (i : ℕ) (hi : i < l.length)
    (d : α) (d' : β) : (l.map f).getD i d' = f (l.getD i d) := by
  rw [List.getD_eq_getElem _ _ (by simpa using hi), List.getD_eq_getElem _ _ hi,
    List.getElem_map]

/-! ### Evaluation of the concrete tables -/

theorem dfThirds_income_values :
    incomeColumns.map (get_value dfThirds) = [1, 1, 1, 0, 0, 0] := by
  simp [incomeColumns, get_value, dfThirds]

theorem dfThirds_income_sum :
    (incomeColumns.map (get_value dfThirds)).sum = 3 := by
  rw [dfThirds_income_values]
  norm_num

theorem dfThirds_income_pct :
    (build_record dfThirds "Scenario 1").income_pct = [33, 33, 33, 0, 0, 0] := by
  have h : (build_record dfThirds "Scenario 1").income_pct =
      pctList (incomeColumns.map (get_value dfThirds)) := rfl
  rw [h, pctList_of_pos _ (by rw [dfThirds_income_sum]; norm_num),
    dfThirds_income_sum, dfThirds_income_values]
  simp only [List.map_cons, List.map_nil]
  have h1 : pyRound ((1 : ℚ) / 3 * 100) = 33 :=
    pyRound_eq_lo _ 33 (by norm_num) (by norm_num)
  have h0 : pyRound ((0 : ℚ) / 3 * 100) = 0 :=
    pyRound_eq_lo _ 0 (by norm_num) (by norm_num)
  rw [h1, h0]

theorem pyRound_intCast (n : ℤ) : pyRound (n : ℚ) = n :=
  pyRound_eq_lo _ n (le_refl _) (by linarith)

theorem pyRound1_intCast (n : ℤ) : pyRound1 (n : ℚ) = n := by
  unfold pyRound1
  have h : pyRound ((n : ℚ) * 10) = n * 10 := by
    have hc : ((n : ℚ) * 10) = ((n * 10 : ℤ) : ℚ) := by push_cast; ring
    rw [hc, pyRound_intCast]
  rw [h]
  push_cast
  ring

theorem pyRound1_one : pyRound1 1 = 1 := by
  have := pyRound1_intCast 1
  simpa using this

theorem build_record_income_pct (df : DataFrame) (name : String) :
    (build_record df name).income_pct =
      pctList (incomeColumns.map (get_value df)) := rfl

theorem build_record_bedroom_pct (df : DataFrame) (name : String) :
    (build_record df name).bedroom_pct =
      pctList (bedroomColumns.map (get_value df)) := rfl

theorem build_record_parking_pct (df : DataFrame) (name : String) :
    (build_record df name).parking_pct =
      pctList (parkingColumns.map (get_value df)) := rfl

theorem build_record_income_values (df : DataFrame) (name : String) :
    (build_record df name).income_values =
      (incomeColumns.map (get_value df)).map pyRound1 := rfl

/-- The two implications of the percentage contract, for one bucket group. -/
theorem pct_group_spec (values : List ℚ) :
    (0 < values.sum → ∀ i, i < values.length →
      (pctList values).getD i 0 = pyRound (values.getD i 0 / values.sum * 100)) ∧
    (values.sum = 0 → ∀ i, i < values.length → (pctList values).getD i 0 = 0) := by
  constructor
  · intro h i hi
    rw [pctList_getD _ _ hi, if_pos h]
  · intro h i hi
    rw [pctList_getD _ _ hi, if_neg (by rw [h]; exact lt_irrefl 0)]

/-! ### Claim theorems -/

/-- C9: calling the loader with an absent (`none`) or empty-string locator
returns `none` immediately — independently of the reader, so no read is
attempted — and emits zero error reports; hence a null result is not always
accompanied by an error report. -/
theorem load_falsy_locator_silent (fetch : String → Except String DataFrame)
    (name : String) :
    load_data_from_aggregation_csv fetch none name = (none, 0) ∧
    load_data_from_aggregation_csv fetch (some "") name = (none, 0) :=
  ⟨rfl, rfl⟩

/-- C9 witness: a concrete reader, never consulted. -/
theorem load_falsy_locator_silent_witness :
    load_data_from_aggregation_csv (fun _ => .error "unreachable") none "Unzoned" =
      (none, 0) :=
  (load_falsy_locator_silent (fun _ => .error "unreachable") "Unzoned").1

/-- C3 counterexample: on an unparseable source the loader does not emit
exactly one error report: it returns null but makes two error calls (the
message and the traceback). -/
theorem load_error_single_report_refuted :
    (load_data_from_aggregation_csv (fun _ => .error "malformed CSV")
        (some "https://example.com/data.csv") "Unzoned").1 = none ∧
    (load_data_from_aggregation_csv (fun _ => .error "malformed CSV")
        (some "https://example.com/data.csv") "Unzoned").2 = 2 ∧
    ¬ (load_data_from_aggregation_csv (fun _ => .error "malformed CSV")
        (some "https://example.com/data.csv") "Unzoned").2 = 1 := by
  refine ⟨rfl, rfl, ?_⟩
  decide

/-- C3 (amended): when the loader is given an unreadable or unparseable
source (a truthy locator whose read raises), it returns null and emits
exactly two error reports (the error message and the traceback), and the
caller proceeds with fewer records: the failing source contributes no
record to the collected data. -/
theorem load_error_two_reports (fetch : String → Except String DataFrame)
    (u name e : String) (hu : u ≠ "") (he : fetch u = .error e) :
    load_data_from_aggregation_csv fetch (some u) name = (none, 2) ∧
    ∀ rest : List ScenarioSource,
      collectAllData fetch ({ url := u, name := name } :: rest) =
        collectAllData fetch rest := by
  have hload : load_data_from_aggregation_csv fetch (some u) name = (none, 2) := by
    simp [load_data_from_aggregation_csv, hu, he]
  refine ⟨hload, fun rest => ?_⟩
  simp [collectAllData, List.filterMap_cons, hload]

/-- C3 witness: a concrete failing fetch on a concrete truthy locator. -/
theorem load_error_two_reports_witness :
    "https://example.com/bad.csv" ≠ "" ∧
    (fun _ : String => (Except.error "malformed CSV" : Except String DataFrame))
        "https://example.com/bad.csv" = .error "malformed CSV" ∧
    load_data_from_aggregation_csv
        (fun _ => .error "malformed CSV") (some "https://example.com/bad.csv")
        "Scenario 2" = (none, 2) :=
  ⟨by decide, rfl,
    (load_error_two_reports (fun _ => .error "malformed CSV")
        "https://example.com/bad.csv" "Scenario 2" "malformed CSV"
        (by decide) rfl).1⟩

/-- C8: with no locator parameters supplied at all, the default locators
are substituted for the baseline and for scenario slots 1 and 2 only, so
exactly the three sources Unzoned, Scenario 1 and Scenario 2 are attempted;
slots 3 through 9 contribute no source. -/
theorem default_locator_slots (unquote : String → String) :
    attemptedSources unquote (fun _ => none) =
      [{ url := default_unzoned_url, name := "Unzoned" },
       { url := default_zoned_url, name := "Scenario 1" },
       { url := default_zoned_url, name := "Scenario 2" }] := by
  rfl

/-- C8 witness: the identity decoder instantiation. -/
theorem default_locator_slots_witness :
    attemptedSources id (fun _ => none) =
      [{ url := default_unzoned_url, name := "Unzoned" },
       { url := default_zoned_url, name := "Scenario 1" },
       { url := default_zoned_url, name := "Scenario 2" }] :=
  default_locator_slots id

/-- C1: for every parseable table, the record's three percentage arrays
satisfy, entrywise, the per-group contract: when the group's extracted
value sum is positive each entry is the banker's-rounded percentage of the
group sum, and when the sum is 0 every entry is 0 (income has 6 entries,
bedroom 4, parking 5). -/
theorem loader_pct_formula (df : DataFrame) (name : String) :
    (0 < (incomeColumns.map (get_value df)).sum →
      ∀ i, i < 6 →
        (build_record df name).income_pct.getD i 0 =
          pyRound ((incomeColumns.map (get_value df)).getD i 0 /
            (incomeColumns.map (get_value df)).sum * 100)) ∧
    ((incomeColumns.map (get_value df)).sum = 0 →
      ∀ i, i < 6 → (build_record df name).income_pct.getD i 0 = 0) ∧
    (0 < (bedroomColumns.map (get_value df)).sum →
      ∀ i, i < 4 →
        (build_record df name).bedroom_pct.getD i 0 =
          pyRound ((bedroomColumns.map (get_value df)).getD i 0 /
            (bedroomColumns.map (get_value df)).sum * 100)) ∧
    ((bedroomColumns.map (get_value df)).sum = 0 →
      ∀ i, i < 4 → (build_record df name).bedroom_pct.getD i 0 = 0) ∧
    (0 < (parkingColumns.map (get_value df)).sum →
      ∀ i, i < 5 →
        (build_record df name).parking_pct.getD i 0 =
          pyRound ((parkingColumns.map (get_value df)).getD i 0 /
            (parkingColumns.map (get_value df)).sum * 100)) ∧
    ((parkingColumns.map (get_value df)).sum = 0 →
      ∀ i, i < 5 → (build_record df name).parking_pct.getD i 0 = 0) := by
  have hi6 : (incomeColumns.map (get_value df)).length = 6 := by simp [incomeColumns]
  have hb4 : (bedroomColumns.map (get_value df)).length = 4 := by simp [bedroomColumns]
  have hp5 : (parkingColumns.map (get_value df)).length = 5 := by simp [parkingColumns]
  have h1 := pct_group_spec (incomeColumns.map (get_value df))
  have h2 := pct_group_spec (bedroomColumns.map (get_value df))
  have h3 := pct_group_spec (parkingColumns.map (get_value df))
  rw [build_record_income_pct, build_record_bedroom_pct, build_record_parking_pct]
  exact ⟨fun h i hi => h1.1 h i (by rw [hi6]; exact hi),
         fun h i hi => h1.2 h i (by rw [hi6]; exact hi),
         fun h i hi => h2.1 h i (by rw [hb4]; exact hi),
         fun h i hi => h2.2 h i (by rw [hb4]; exact hi),
         fun h i hi => h3.1 h i (by rw [hp5]; exact hi),
         fun h i hi => h3.2 h i (by rw [hp5]; exact hi)⟩

/-- C1 witness: the first income entry of the thirds table. -/
theorem loader_pct_formula_witness :
    0 < (incomeColumns.map (get_value dfThirds)).sum ∧ (0 : ℕ) < 6 ∧
    (build_record dfThirds "Unzoned").income_pct.getD 0 0 =
      pyRound ((incomeColumns.map (get_value dfThirds)).getD 0 0 /
        (incomeColumns.map (get_value dfThirds)).sum * 100) :=
  ⟨by rw [dfThirds_income_sum]; norm_num, by decide,
   (loader_pct_formula dfThirds "Unzoned").1
     (by rw [dfThirds_income_sum]; norm_num) 0 (by decide)⟩

/-- C2 counterexample: the thirds table gives income values [1,1,1,0,0,0]
(not all zero) whose percentage array sums to 99, not 100. -/
theorem pct_sum_not_always_100 :
    (build_record dfThirds "Scenario 1").income_values = [1, 1, 1, 0, 0, 0] ∧
    (build_record dfThirds "Scenario 1").income_values ≠ [0, 0, 0, 0, 0, 0] ∧
    (build_record dfThirds "Scenario 1").income_pct.sum = 99 ∧
    ¬ (build_record dfThirds "Scenario 1").income_pct.sum = 100 := by
  have hvals : (build_record dfThirds "Scenario 1").income_values =
      [1, 1, 1, 0, 0, 0] := by
    rw [build_record_income_values, dfThirds_income_values]
    simp only [List.map_cons, List.map_nil]
    rw [pyRound1_one, pyRound1_zero]
  refine ⟨hvals, ?_, ?_, ?_⟩
  · rw [hvals]
    norm_num
  · rw [dfThirds_income_pct]
    decide
  · rw [dfThirds_income_pct]
    decide

/-- C2 (amended): each of the three percentage arrays sums to within half
the group size of 100 when the group's extracted value sum is strictly
positive (independent per-entry rounding may drift the sum from 100, e.g.
to 99), and is identically zero when the group's value sum is 0. -/
theorem pct_sum_within_drift (df : DataFrame) (name : String) :
    (0 < (incomeColumns.map (get_value df)).sum →
      |((build_record df name).income_pct.sum : ℚ) - 100| ≤ 3) ∧
    ((incomeColumns.map (get_value df)).sum = 0 →
      (build_record df name).income_pct = [0, 0, 0, 0, 0, 0]) ∧
    (0 < (bedroomColumns.map (get_value df)).sum →
      |((build_record df name).bedroom_pct.sum : ℚ) - 100| ≤ 2) ∧
    ((bedroomColumns.map (get_value df)).sum = 0 →
      (build_record df name).bedroom_pct = [0, 0, 0, 0]) ∧
    (0 < (parkingColumns.map (get_value df)).sum →
      |((build_record df name).parking_pct.sum : ℚ) - 100| ≤ 5 / 2) ∧
    ((parkingColumns.map (get_value df)).sum = 0 →
      (build_record df name).parking_pct = [0, 0, 0, 0, 0]) := by
  have hi6 : (incomeColumns.map (get_value df)).length = 6 := by simp [incomeColumns]
  have hb4 : (bedroomColumns.map (get_value df)).length = 4 := by simp [bedroomColumns]
  have hp5 : (parkingColumns.map (get_value df)).length = 5 := by simp [parkingColumns]
  rw [build_record_income_pct, build_record_bedroom_pct, build_record_parking_pct]
  refine ⟨fun h => ?_, fun h => ?_, fun h => ?_, fun h => ?_, fun h => ?_, fun h => ?_⟩
  · have hb := pctList_sum_bound _ h
    rw [hi6] at hb
    exact le_trans hb (by norm_num)
  · rw [pctList_of_not_pos _ (by rw [h]; exact lt_irrefl 0), hi6]
    rfl
  · have hb := pctList_sum_bound _ h
    rw [hb4] at hb
    exact le_trans hb (by norm_num)
  · rw [pctList_of_not_pos _ (by rw [h]; exact lt_irrefl 0), hb4]
    rfl
  · have hb := pctList_sum_bound _ h
    rw [hp5] at hb
    exact le_trans hb (by norm_num)
  · rw [pctList_of_not_pos _ (by rw [h]; exact lt_irrefl 0), hp5]
    rfl

/-- C2 witness: the drift bound instantiated at the thirds table. -/
theorem pct_sum_within_drift_witness :
    0 < (incomeColumns.map (get_value dfThirds)).sum ∧
    |((build_record dfThirds "Unzoned").income_pct.sum : ℚ) - 100| ≤ 3 :=
  ⟨by rw [dfThirds_income_sum]; norm_num,
   (pct_sum_within_drift dfThirds "Unzoned").1
     (by rw [dfThirds_income_sum]; norm_num)⟩

/-- C4: a parseable table missing every documented column, or with zero
data rows, loads to the all-zero record (every bucket value, every
percentage entry, and both totals are 0), and the loader never returns
null for such an input. -/
theorem loader_missing_columns_zero (df : DataFrame) (name : String)
    (h : (∀ c ∈ documentedColumns, c ∉ df.cols) ∨ df.rows = []) :
    build_record df name = zeroRecord name ∧
    ∀ (fetch : String → Except String DataFrame) (u : String),
      u ≠ "" → fetch u = .ok df →
      load_data_from_aggregation_csv fetch (some u) name =
        (some (zeroRecord name), 0) := by
  have hall : ∀ c ∈ documentedColumns, get_value df c = 0 := by
    rcases h with h | h
    · exact fun c hc => get_value_of_not_mem df c (h c hc)
    · exact fun c _ => get_value_of_rows_nil df h c
  have hinc : incomeColumns.map (get_value df) = List.replicate 6 0 :=
    map_get_value_zero df incomeColumns fun c hc =>
      hall c (by simp only [documentedColumns, List.mem_append]; exact Or.inl (Or.inl (Or.inl hc)))
  have hbed : bedroomColumns.map (get_value df) = List.replicate 4 0 :=
    map_get_value_zero df bedroomColumns fun c hc =>
      hall c (by simp only [documentedColumns, List.mem_append]; exact Or.inl (Or.inl (Or.inr hc)))
  have hpark : parkingColumns.map (get_value df) = List.replicate 5 0 :=
    map_get_value_zero df parkingColumns fun c hc =>
      hall c (by simp only [documentedColumns, List.mem_append]; exact Or.inl (Or.inr hc))
  have htot : get_value df "totalUnitsSum" = 0 := hall _ (by decide)
  have haff : get_value df "affordableUnitsSum" = 0 := hall _ (by decide)
  have hz6 : pctList [0, 0, 0, 0, 0, 0] = [0, 0, 0, 0, 0, 0] := by
    simpa using pctList_replicate_zero 6
  have hz4 : pctList [0, 0, 0, 0] = [0, 0, 0, 0] := by
    simpa using pctList_replicate_zero 4
  have hz5 : pctList [0, 0, 0, 0, 0] = [0, 0, 0, 0, 0] := by
    simpa using pctList_replicate_zero 5
  have hrec : build_record df name = zeroRecord name := by
    simp [build_record, zeroRecord, hinc, hbed, hpark, htot, haff,
      pyRound1_zero, hz6, hz4, hz5]
  refine ⟨hrec, fun fetch u hu hok => ?_⟩
  simp [load_data_from_aggregation_csv, hu, hok, hrec]

/-- C4 witness: the bare table, missing every documented column. -/
theorem loader_missing_columns_zero_witness :
    ((∀ c ∈ documentedColumns, c ∉ dfBare.cols) ∨ dfBare.rows = []) ∧
    build_record dfBare "Scenario 3" = zeroRecord "Scenario 3" :=
  ⟨Or.inl (by decide),
   (loader_missing_columns_zero dfBare "Scenario 3" (Or.inl (by decide))).1⟩

/-- C7: on a table with at least one data row the loader reads only the
first row: it builds the same record as on the table truncated to its
first row, and two fetches differing only beyond the first row produce
identical load results. -/
theorem loader_first_row_only (df : DataFrame) (name : String)
    (_h : df.rows ≠ []) :
    build_record df name = build_record (firstRowOnly df) name ∧
    ∀ (fetch₁ fetch₂ : String → Except String DataFrame) (u : String),
      u ≠ "" → fetch₁ u = .ok df → fetch₂ u = .ok (firstRowOnly df) →
      load_data_from_aggregation_csv fetch₁ (some u) name =
        load_data_from_aggregation_csv fetch₂ (some u) name := by
  have hb : build_record df name = build_record (firstRowOnly df) name :=
    (build_record_firstRowOnly df name).symm
  refine ⟨hb, fun f₁ f₂ u hu h₁ h₂ => ?_⟩
  simp [load_data_from_aggregation_csv, hu, h₁, h₂, hb]

/-- C7 witness: the two-row table. -/
theorem loader_first_row_only_witness :
    dfTwoRows.rows ≠ [] ∧
    build_record dfTwoRows "Scenario 4" =
      build_record (firstRowOnly dfTwoRows) "Scenario 4" :=
  ⟨by simp [dfTwoRows],
   (loader_first_row_only dfTwoRows "Scenario 4" (by simp [dfTwoRows])).1⟩

theorem grouped_trace2_y (names : List String) (tot aff : List ℚ) (color : String) :
    (create_total_feasibility_chart_grouped names tot aff color).2.y =
      aff.map fun val => if 0 < val then val
        else max (listMax tot) (listMax aff) * (1 / 100) := rfl

theorem grouped_trace2_text (names : List String) (tot aff : List ℚ) (color : String) :
    (create_total_feasibility_chart_grouped names tot aff color).2.text =
      aff.map fun actual => if 0 < actual then toString (pyInt actual) else "" := rfl

theorem grouped_trace2_customdata (names : List String) (tot aff : List ℚ)
    (color : String) :
    (create_total_feasibility_chart_grouped names tot aff color).2.customdata =
      some aff := rfl

theorem stacked_chart_y (all_data : List ScenarioRecord) (categories : List String)
    (data_key : String) (colors : String → String) :
    (create_multi_scenario_stacked_chart all_data categories data_key colors).map
        StackedTrace.y =
      (List.range categories.length).map fun i =>
        all_data.map fun d => (scenario_pct data_key d).getD i 0 := by
  simp [create_multi_scenario_stacked_chart]

/-- C5: in the grouped-totals assembler, every scenario whose affordable
value is 0 is displayed at 1% of the maximum value across both series with
an empty text label, while `customdata` still carries the true values; in
particular on Total Units [100], Affordable Units [0] the displayed height
is 1 with an empty label and underlying value 0. -/
theorem grouped_zero_affordable_sliver (names : List String) (tot aff : List ℚ)
    (color : String) (i : ℕ) (hi : i < aff.length) (hz : aff.getD i 0 = 0) :
    ((create_total_feasibility_chart_grouped names tot aff color).2.y.getD i 0 =
        max (listMax tot) (listMax aff) * (1 / 100) ∧
      (create_total_feasibility_chart_grouped names tot aff color).2.text.getD i "?" =
        "" ∧
      (create_total_feasibility_chart_grouped names tot aff color).2.customdata =
        some aff) ∧
    ((create_total_feasibility_chart_grouped ["A"] [100] [0] "#D66E6C").2.y = [1] ∧
      (create_total_feasibility_chart_grouped ["A"] [100] [0] "#D66E6C").2.text =
        [""] ∧
      (create_total_feasibility_chart_grouped ["A"] [100] [0] "#D66E6C").2.customdata =
        some [0]) := by
  refine ⟨⟨?_, ?_, grouped_trace2_customdata names tot aff color⟩, ?_, ?_, rfl⟩
  · rw [grouped_trace2_y, getD_map _ _ i hi 0, hz, if_neg (lt_irrefl 0)]
  · rw [grouped_trace2_text, getD_map _ _ i hi 0, hz, if_neg (lt_irrefl 0)]
  · rw [grouped_trace2_y]
    simp [listMax, max_def]
  · rw [grouped_trace2_text]
    simp

/-- C5 witness: index 0 of Affordable Units [0] against Total Units [50]. -/
theorem grouped_zero_affordable_sliver_witness :
    (0 : ℕ) < [(0 : ℚ)].length ∧ ([(0 : ℚ)].getD 0 0 = 0) ∧
    (create_total_feasibility_chart_grouped ["B"] [50] [0] "#D66E6C").2.y.getD 0 0 =
      max (listMax [50]) (listMax [(0 : ℚ)]) * (1 / 100) :=
  ⟨by simp, rfl,
   ((grouped_zero_affordable_sliver ["B"] [50] [0] "#D66E6C" 0 (by simp) rfl).1).1⟩

/-- C6: the thirds table is an input whose income percentage array sums to
99 because of independent per-entry rounding, and the stacked-chart
assembler does not renormalize: the y values it emits are exactly the
record's percentage entries, unchanged. -/
theorem stacked_no_renormalize :
    (build_record dfThirds "Scenario 1").income_pct.sum = 99 ∧
    (create_multi_scenario_stacked_chart [build_record dfThirds "Scenario 1"]
        income_brackets "income_pct" income_bracket_colors).map StackedTrace.y =
      (build_record dfThirds "Scenario 1").income_pct.map fun p => [p] := by
  constructor
  · rw [dfThirds_income_pct]
    decide
  · rw [stacked_chart_y]
    simp only [scenario_pct, List.map_cons, List.map_nil, if_pos]
    rw [dfThirds_income_pct]
    decide

/-- C10: in the grouped-totals assembler, on a non-empty input in which
every Total Units and every Affordable Units value is 0, the minimum
display value is 0 (1% of a maximum of 0), so the zero-valued Affordable
bars are displayed at height 0 and no visible sliver appears. -/
theorem grouped_all_zero_no_sliver (names : List String) (tot aff : List ℚ)
    (color : String) (_ht : tot ≠ []) (_ha : aff ≠ [])
    (htz : ∀ v ∈ tot, v = 0) (haz : ∀ v ∈ aff, v = 0) :
    max (listMax tot) (listMax aff) * (1 / 100) = 0 ∧
    (create_total_feasibility_chart_grouped names tot aff color).2.y =
      List.replicate aff.length 0 := by
  have h1 : listMax tot = 0 := listMax_all_zero tot htz
  have h2 : listMax aff = 0 := listMax_all_zero aff haz
  have hmax : max (listMax tot) (listMax aff) * (1 / 100) = 0 := by
    rw [h1, h2, max_self]
    ring
  refine ⟨hmax, ?_⟩
  rw [grouped_trace2_y]
  have hall : ∀ v ∈ aff,
      (if 0 < v then v else max (listMax tot) (listMax aff) * (1 / 100)) = 0 :=
    fun v hv => by rw [haz v hv, if_neg (lt_irrefl 0), hmax]
  rw [List.map_congr_left hall]
  simp [List.map_const']

/-- C10 witness: one scenario with both totals 0. -/
theorem grouped_all_zero_no_sliver_witness :
    ([(0 : ℚ)] ≠ []) ∧ (∀ v ∈ [(0 : ℚ)], v = 0) ∧
    (create_total_feasibility_chart_grouped ["Unzoned"] [0] [0] "#D66E6C").2.y =
      List.replicate [(0 : ℚ)].length 0 :=
  ⟨by simp, by simp,
   (grouped_all_zero_no_sliver ["Unzoned"] [0] [0] "#D66E6C" (by simp) (by simp)
     (by simp) (by simp)).2⟩

end ZoningReportCard
